import Mathlib

/-!
Verification of the type-encoding core of `parity-wasm-gc`
(`src/elements/types.rs` and `src/builder/misc.rs`).

The byte stream is modelled as a `List Nat` (each element a byte value);
deserializers are state-passing functions `List Nat → Except Error (α × List Nat)`
returning the decoded value and the unread remainder, and serializers are pure
byte-list producers (the Rust writers only fail on I/O, which a pure list
writer cannot).  The variable-length integer codecs (`VarInt7`, `VarUint1`,
`VarUint32`) and the counted-list codec are external collaborators of the core
and are modelled from the spec's description of them.
-/

namespace ParityWasm

/-- Errors of the codec, from the spec's error-handling section:
`UnknownValueType` carries the offending signed tag, `Other` a message;
`UnexpectedEof` and `InvalidVarInt` model the propagated failures of the
underlying primitive varint codec. -/
inductive Error where
  | UnknownValueType : Int → Error
  | Other : String → Error
  | UnexpectedEof : Error
  | InvalidVarInt : Nat → Error
deriving DecidableEq

/-- Decidable equality of decode results, so concrete decodings can be
checked by `decide`. -/
instance {ε α : Type} [DecidableEq ε] [DecidableEq α] : DecidableEq (Except ε α)
  | .ok a, .ok b => decidable_of_iff (a = b) (by simp)
  | .ok _, .error _ => .isFalse (by simp)
  | .error _, .ok _ => .isFalse (by simp)
  | .error e, .error f => decidable_of_iff (e = f) (by simp)

/-! ### Tag constants, from `src/elements/types.rs` lines 8-21 -/

def I32TYPE : Int := -0x01
def I64TYPE : Int := -0x02
def F32TYPE : Int := -0x03
def F64TYPE : Int := -0x04
def V128TYPE : Int := -0x05
def ANYFUNCTYPE : Int := -0x10
def ANYREFTYPE : Int := -0x11
def REFTYPE : Int := -0x12
def PACKEDI8TYPE : Int := -0x18
def PACKEDI16TYPE : Int := -0x19
def FUNCTIONTYPE : Int := -0x20
def STRUCTTYPE : Int := -0x21
def ARRAYTYPE : Int := -0x22
def NORESULTTYPE : Int := -0x40

/-! ### Primitive varint codecs (external collaborators)

Modelled from the spec: `SignedVarint7` encodes an 8-bit-range signed value in
one byte using the 7-bit-group signed varint rule (bit 6 is the sign bit, the
high bit is never set in a one-group varint); `UnsignedVarint32` is a standard
little-endian base-128 varint of at most five groups; `UnsignedVarint1` is one
byte that must be 0 or 1. -/

/-- Modelled from the spec: `SignedVarint7` encode of a value in `[-64, 63]`
as a single byte. -/
def varInt7Encode (v : Int) : Nat := (v % 128).toNat

/-- Modelled from the spec: `SignedVarint7` decode, one byte with bit 6 as
the sign bit; a byte with the continuation bit set is malformed. -/
def varInt7Decode : List Nat → Except Error (Int × List Nat)
  | [] => .error .UnexpectedEof
  | b :: rest =>
    if b < 128 then
      .ok (if b < 64 then (b : Int) else (b : Int) - 128, rest)
    else
      .error (.InvalidVarInt b)

/-- Modelled from the spec: `UnsignedVarint32` encode, little-endian 7-bit
groups, continuation bit on every group but the last; the group count is
bounded because the encoded value is 32-bit. -/
def varUint32EncodeAux : Nat → Nat → List Nat
  | 0, v => [v]
  | fuel + 1, v =>
    if v < 128 then [v]
    else (v % 128 + 128) :: varUint32EncodeAux fuel (v / 128)

/-- Modelled from the spec: `UnsignedVarint32` encode (at most five groups,
exact on the 32-bit range). -/
def varUint32Encode (v : Nat) : List Nat := varUint32EncodeAux 4 v

/-- Modelled from the spec: `UnsignedVarint32` decode with a bound on the
number of 7-bit groups still allowed. -/
def varUintDecodeAux : Nat → List Nat → Except Error (Nat × List Nat)
  | _, [] => .error .UnexpectedEof
  | 0, b :: _ => .error (.InvalidVarInt b)
  | fuel + 1, b :: rest =>
    if b < 128 then
      .ok (b, rest)
    else
      match varUintDecodeAux fuel rest with
      | .ok (v, r) => .ok ((b - 128) + 128 * v, r)
      | .error e => .error e

/-- Modelled from the spec: `UnsignedVarint32` decode (at most five groups,
covering the 32-bit range). -/
def varUint32Decode (bs : List Nat) : Except Error (Nat × List Nat) :=
  varUintDecodeAux 5 bs

/-- Modelled from the spec: `UnsignedVarint1` (boolean) encode, one byte. -/
def varUint1Encode (b : Bool) : Nat := if b then 1 else 0

/-- Modelled from the spec: `UnsignedVarint1` (boolean) decode, one byte that
must be 0 or 1. -/
def varUint1Decode : List Nat → Except Error (Bool × List Nat)
  | [] => .error .UnexpectedEof
  | 0 :: rest => .ok (false, rest)
  | 1 :: rest => .ok (true, rest)
  | b :: _ => .error (.InvalidVarInt b)

/-- Modelled from the spec: the counted-list codec, element loop — decode
exactly `n` elements with the given element decoder. -/
def countedListDecodeAux {α : Type} (dec : List Nat → Except Error (α × List Nat)) :
    Nat → List Nat → Except Error (List α × List Nat)
  | 0, bs => .ok ([], bs)
  | n + 1, bs =>
    match dec bs with
    | .error e => .error e
    | .ok (a, rest) =>
      match countedListDecodeAux dec n rest with
      | .error e => .error e
      | .ok (as, r) => .ok (a :: as, r)

/-- Modelled from the spec: `CountedList` decode — an unsigned-32 varint
count, then that many elements. -/
def countedListDecode {α : Type} (dec : List Nat → Except Error (α × List Nat))
    (bs : List Nat) : Except Error (List α × List Nat) :=
  match varUint32Decode bs with
  | .error e => .error e
  | .ok (n, rest) => countedListDecodeAux dec n rest

/-- Modelled from the spec: `CountedListWriter` — an unsigned-32 varint count,
then the element encodings back to back. -/
def countedListEncode {α : Type} (enc : α → List Nat) (xs : List α) : List Nat :=
  varUint32Encode xs.length ++ xs.foldr (fun a acc => enc a ++ acc) []

/-! ### The type model, from `src/elements/types.rs` -/

/-- Number type (`NumType`). -/
inductive NumType where
  | I32
  | I64
  | F32
  | F64
deriving DecidableEq

/-- Reference type (`RefType`).  `Ref` carries a `u32` type index, modelled as
a `Nat`; constructibility in the source bounds it below `2^32`. -/
inductive RefType where
  | AnyRef
  | AnyFunc
  | Ref (idx : Nat)
deriving DecidableEq

/-- Value type (`ValueType`). -/
inductive ValueType where
  | Num (n : NumType)
  | Ref (r : RefType)
  | V128
deriving DecidableEq

/-- Storage type (`StorageType`). -/
inductive StorageType where
  | Value (v : ValueType)
  | PackedI8
  | PackedI16
deriving DecidableEq

/-- Block type (`BlockType`). -/
inductive BlockType where
  | Value (v : ValueType)
  | NoResult
deriving DecidableEq

/-- Function signature type (`FunctionType`). -/
structure FunctionType where
  params : List ValueType
  return_type : Option ValueType
deriving DecidableEq

/-- Field type (`FieldType`). -/
structure FieldType where
  elem : StorageType
  mutable : Bool
deriving DecidableEq

/-- Structure type (`StructType`). -/
structure StructType where
  fields : List FieldType
deriving DecidableEq

/-- Array type (`ArrayType`). -/
structure ArrayType where
  elem : FieldType
deriving DecidableEq

/-- Type-section entry (`Type` in the source; `Type` is reserved in Lean). -/
inductive Type' where
  | Function (f : FunctionType)
  | Struct (s : StructType)
  | Array (a : ArrayType)
deriving DecidableEq

/-! ### Tag tables (`from_bits` / `to_bits`) -/

/-- `NumType::from_bits`. -/
def NumType.from_bits (x : Int) : Option NumType :=
  if x = I32TYPE then some .I32
  else if x = I64TYPE then some .I64
  else if x = F32TYPE then some .F32
  else if x = F64TYPE then some .F64
  else none

/-- `NumType::to_bits`. -/
def NumType.to_bits : NumType → Int
  | .I32 => I32TYPE
  | .I64 => I64TYPE
  | .F32 => F32TYPE
  | .F64 => F64TYPE

/-- `RefType::from_bits`: the indexed-reference tag yields `Ref(0)`, the
index placeholder, to be filled by `read_rest`. -/
def RefType.from_bits (x : Int) : Option RefType :=
  if x = ANYFUNCTYPE then some .AnyFunc
  else if x = ANYREFTYPE then some .AnyRef
  else if x = REFTYPE then some (.Ref 0)
  else none

/-- `RefType::to_bits`. -/
def RefType.to_bits : RefType → Int
  | .AnyFunc => ANYFUNCTYPE
  | .AnyRef => ANYREFTYPE
  | .Ref _ => REFTYPE

/-- `ValueType::from_bits`: try the V128 constant, then `NumType`'s table,
then `RefType`'s table. -/
def ValueType.from_bits (x : Int) : Option ValueType :=
  ((if x = V128TYPE then some ValueType.V128 else none).orElse
    fun _ => (NumType.from_bits x).map ValueType.Num).orElse
    fun _ => (RefType.from_bits x).map ValueType.Ref

/-- `ValueType::to_bits`. -/
def ValueType.to_bits : ValueType → Int
  | .V128 => V128TYPE
  | .Num n => n.to_bits
  | .Ref r => r.to_bits

/-! ### Trailing fields (`read_rest` / `write_rest`) -/

/-- `RefType::read_rest`: an indexed reference reads one unsigned-32 varint
and stores it as the index; other variants read nothing. -/
def RefType.read_rest (r : RefType) (bs : List Nat) :
    Except Error (RefType × List Nat) :=
  match r with
  | .Ref _ =>
    match varUint32Decode bs with
    | .ok (i, rest) => .ok (.Ref i, rest)
    | .error e => .error e
  | _ => .ok (r, bs)

/-- `RefType::write_rest`. -/
def RefType.write_rest : RefType → List Nat
  | .Ref i => varUint32Encode i
  | _ => []

/-- `ValueType::read_rest`. -/
def ValueType.read_rest (v : ValueType) (bs : List Nat) :
    Except Error (ValueType × List Nat) :=
  match v with
  | .Ref r =>
    match RefType.read_rest r bs with
    | .ok (r2, rest) => .ok (.Ref r2, rest)
    | .error e => .error e
  | _ => .ok (v, bs)

/-- `ValueType::write_rest`. -/
def ValueType.write_rest : ValueType → List Nat
  | .Ref r => r.write_rest
  | _ => []

/-! ### Deserialize / Serialize implementations -/

/-- `RefType::deserialize`. -/
def RefType.deserialize (bs : List Nat) : Except Error (RefType × List Nat) :=
  match varInt7Decode bs with
  | .error e => .error e
  | .ok (val, rest) =>
    match RefType.from_bits val with
    | none => .error (.UnknownValueType val)
    | some item => item.read_rest rest

/-- `RefType::serialize`. -/
def RefType.serialize (r : RefType) : List Nat :=
  varInt7Encode r.to_bits :: r.write_rest

/-- `ValueType::deserialize`. -/
def ValueType.deserialize (bs : List Nat) : Except Error (ValueType × List Nat) :=
  match varInt7Decode bs with
  | .error e => .error e
  | .ok (val, rest) =>
    match ValueType.from_bits val with
    | none => .error (.UnknownValueType val)
    | some item => item.read_rest rest

/-- `ValueType::serialize`. -/
def ValueType.serialize (v : ValueType) : List Nat :=
  varInt7Encode v.to_bits :: v.write_rest

/-- `BlockType::deserialize`: reads one tag, maps it through the `NoResult`
constant or `ValueType`'s tag table, and returns — no `read_rest` call. -/
def BlockType.deserialize (bs : List Nat) : Except Error (BlockType × List Nat) :=
  match varInt7Decode bs with
  | .error e => .error e
  | .ok (bits, rest) =>
    match (if bits = NORESULTTYPE then some BlockType.NoResult else none).orElse
        (fun _ => (ValueType.from_bits bits).map BlockType.Value) with
    | some b => .ok (b, rest)
    | none => .error (.UnknownValueType bits)

/-- `BlockType::serialize`: writes the tag byte only, no `write_rest` call. -/
def BlockType.serialize (b : BlockType) : List Nat :=
  [varInt7Encode (match b with
    | .NoResult => NORESULTTYPE
    | .Value v => v.to_bits)]

/-- `FunctionType::deserialize`. -/
def FunctionType.deserialize (bs : List Nat) :
    Except Error (FunctionType × List Nat) :=
  match countedListDecode ValueType.deserialize bs with
  | .error e => .error e
  | .ok (params, rest) =>
    match varUint32Decode rest with
    | .error e => .error e
    | .ok (return_types, rest2) =>
      if return_types = 1 then
        match ValueType.deserialize rest2 with
        | .error e => .error e
        | .ok (v, rest3) => .ok (⟨params, some v⟩, rest3)
      else if return_types = 0 then
        .ok (⟨params, none⟩, rest2)
      else
        .error (.Other "Return types length should be 0 or 1")

/-- `FunctionType::serialize`: the parameter list, then a boolean-as-varuint1
presence flag, then the optional return type. -/
def FunctionType.serialize (f : FunctionType) : List Nat :=
  countedListEncode ValueType.serialize f.params ++
    (match f.return_type with
     | some rt => varUint1Encode true :: rt.serialize
     | none => [varUint1Encode false])

/-- `StorageType::deserialize`. -/
def StorageType.deserialize (bs : List Nat) :
    Except Error (StorageType × List Nat) :=
  match varInt7Decode bs with
  | .error e => .error e
  | .ok (val, rest) =>
    if val = PACKEDI8TYPE then .ok (.PackedI8, rest)
    else if val = PACKEDI16TYPE then .ok (.PackedI16, rest)
    else
      match ValueType.from_bits val with
      | some item =>
        match item.read_rest rest with
        | .ok (v, r) => .ok (.Value v, r)
        | .error e => .error e
      | none => .error (.UnknownValueType val)

/-- `StorageType::serialize`. -/
def StorageType.serialize : StorageType → List Nat
  | .PackedI8 => [varInt7Encode PACKEDI8TYPE]
  | .PackedI16 => [varInt7Encode PACKEDI16TYPE]
  | .Value v => varInt7Encode v.to_bits :: v.write_rest

/-- `FieldType::deserialize`: mutability flag first, then the storage type. -/
def FieldType.deserialize (bs : List Nat) : Except Error (FieldType × List Nat) :=
  match varUint1Decode bs with
  | .error e => .error e
  | .ok (m, rest) =>
    match StorageType.deserialize rest with
    | .error e => .error e
    | .ok (e, r) => .ok (⟨e, m⟩, r)

/-- `FieldType::serialize`. -/
def FieldType.serialize (f : FieldType) : List Nat :=
  varUint1Encode f.mutable :: f.elem.serialize

/-- `StructType::deserialize`: a counted list of field types. -/
def StructType.deserialize (bs : List Nat) : Except Error (StructType × List Nat) :=
  match countedListDecode FieldType.deserialize bs with
  | .error e => .error e
  | .ok (fields, rest) => .ok (⟨fields⟩, rest)

/-- `StructType::serialize`. -/
def StructType.serialize (s : StructType) : List Nat :=
  countedListEncode FieldType.serialize s.fields

/-- `ArrayType::deserialize`: exactly one field type, no count prefix. -/
def ArrayType.deserialize (bs : List Nat) : Except Error (ArrayType × List Nat) :=
  match FieldType.deserialize bs with
  | .error e => .error e
  | .ok (f, rest) => .ok (⟨f⟩, rest)

/-- `ArrayType::serialize`. -/
def ArrayType.serialize (a : ArrayType) : List Nat :=
  a.elem.serialize

/-- `Type::deserialize`: one signed 7-bit discriminant, then the matching
sub-decoder. -/
def Type'.deserialize (bs : List Nat) : Except Error (Type' × List Nat) :=
  match varInt7Decode bs with
  | .error e => .error e
  | .ok (val, rest) =>
    if val = FUNCTIONTYPE then
      match FunctionType.deserialize rest with
      | .ok (f, r) => .ok (.Function f, r)
      | .error e => .error e
    else if val = STRUCTTYPE then
      match StructType.deserialize rest with
      | .ok (s, r) => .ok (.Struct s, r)
      | .error e => .error e
    else if val = ARRAYTYPE then
      match ArrayType.deserialize rest with
      | .ok (a, r) => .ok (.Array a, r)
      | .error e => .error e
    else
      .error (.UnknownValueType val)

/-- `Type::serialize`. -/
def Type'.serialize : Type' → List Nat
  | .Function f => varInt7Encode FUNCTIONTYPE :: f.serialize
  | .Struct s => varInt7Encode STRUCTTYPE :: s.serialize
  | .Array a => varInt7Encode ARRAYTYPE :: a.serialize

/-! ### Constructibility bounds

In the source the reference index is a `u32` and list lengths fit the
32-bit count written by the counted-list writer; these predicates carve out
exactly the values constructible there. -/

/-- `RefType` constructibility: the index fits in 32 bits. -/
def RefType.wf : RefType → Bool
  | .Ref i => i < 2 ^ 32
  | _ => true

/-- `ValueType` constructibility. -/
def ValueType.wf : ValueType → Bool
  | .Ref r => r.wf
  | _ => true

/-- `StorageType` constructibility. -/
def StorageType.wf : StorageType → Bool
  | .Value v => v.wf
  | _ => true

/-- `BlockType` constructibility. -/
def BlockType.wf : BlockType → Bool
  | .Value v => v.wf
  | .NoResult => true

/-- `FunctionType` constructibility. -/
def FunctionType.wf (f : FunctionType) : Bool :=
  f.params.length < 2 ^ 32 && f.params.all ValueType.wf &&
    (match f.return_type with
     | some v => v.wf
     | none => true)

/-- `FieldType` constructibility. -/
def FieldType.wf (f : FieldType) : Bool :=
  f.elem.wf

/-- `StructType` constructibility. -/
def StructType.wf (s : StructType) : Bool :=
  s.fields.length < 2 ^ 32 && s.fields.all FieldType.wf

/-- `ArrayType` constructibility. -/
def ArrayType.wf (a : ArrayType) : Bool :=
  a.elem.wf

/-- `Type` constructibility. -/
def Type'.wf : Type' → Bool
  | .Function f => f.wf
  | .Struct s => s.wf
  | .Array a => a.wf

/-! ### Builder layer, from `src/builder/misc.rs` -/

/-- `ValueTypesBuilder`: a continuation and the accumulated value types. -/
structure ValueTypesBuilder (R : Type) where
  callback : List ValueType → R
  value_types : List ValueType

/-- `ValueTypesBuilder::with_callback`. -/
def ValueTypesBuilder.with_callback {R : Type} (f : List ValueType → R) :
    ValueTypesBuilder R :=
  ⟨f, []⟩

/-- `ValueTypesBuilder::i32`: push I32 and return the builder. -/
def ValueTypesBuilder.i32 {R : Type} (b : ValueTypesBuilder R) :
    ValueTypesBuilder R :=
  { b with value_types := b.value_types ++ [ValueType.Num NumType.I32] }

/-- `ValueTypesBuilder::i64`. -/
def ValueTypesBuilder.i64 {R : Type} (b : ValueTypesBuilder R) :
    ValueTypesBuilder R :=
  { b with value_types := b.value_types ++ [ValueType.Num NumType.I64] }

/-- `ValueTypesBuilder::f32`. -/
def ValueTypesBuilder.f32 {R : Type} (b : ValueTypesBuilder R) :
    ValueTypesBuilder R :=
  { b with value_types := b.value_types ++ [ValueType.Num NumType.F32] }

/-- `ValueTypesBuilder::f64`. -/
def ValueTypesBuilder.f64 {R : Type} (b : ValueTypesBuilder R) :
    ValueTypesBuilder R :=
  { b with value_types := b.value_types ++ [ValueType.Num NumType.F64] }

/-- `ValueTypesBuilder::build`: hand the accumulated sequence to the
continuation. -/
def ValueTypesBuilder.build {R : Type} (b : ValueTypesBuilder R) : R :=
  b.callback b.value_types

/-! ### Round-trip lemmas for the primitive codecs -/

/-- A signed 7-bit value decodes back from its one-byte encoding. -/
theorem varInt7_rt (t : Int) (rest : List Nat) (h1 : -64 ≤ t) (h2 : t < 64) :
    varInt7Decode (varInt7Encode t :: rest) = .ok (t, rest) := by
  simp only [varInt7Encode, varInt7Decode]
  split_ifs <;> simp_all <;> omega

/-- The bounded unsigned varint decoder inverts the bounded encoder, leaving
the suffix untouched. -/
theorem varUintDecodeAux_rt (fuel : Nat) :
    ∀ (v : Nat) (rest : List Nat), v < 128 ^ (fuel + 1) →
      varUintDecodeAux (fuel + 1) (varUint32EncodeAux fuel v ++ rest) = .ok (v, rest) := by
  induction fuel with
  | zero =>
    intro v rest h
    have hv : v < 128 := by simpa using h
    simp [varUint32EncodeAux, varUintDecodeAux, hv]
  | succ fuel ih =>
    intro v rest h
    by_cases hv : v < 128
    · simp [varUint32EncodeAux, varUintDecodeAux, hv]
    · have hrec : v / 128 < 128 ^ (fuel + 1) := by
        rw [Nat.div_lt_iff_lt_mul (by norm_num)]
        calc v < 128 ^ (fuel + 2) := h
        _ = 128 ^ (fuel + 1) * 128 := by ring
      have hb : ¬ (v % 128 + 128 < 128) := by omega
      simp only [varUint32EncodeAux, hv, if_false, List.cons_append, varUintDecodeAux,
        hb, ih (v / 128) rest hrec]
      simp only [Except.ok.injEq, Prod.mk.injEq, and_true]
      omega

/-- Unsigned-32 varint round-trip on the 32-bit range. -/
theorem varUint32_rt (v : Nat) (rest : List Nat) (h : v < 2 ^ 32) :
    varUint32Decode (varUint32Encode v ++ rest) = .ok (v, rest) :=
  varUintDecodeAux_rt 4 v rest (by
    have h5 : (2 : Nat) ^ 32 ≤ 128 ^ (4 + 1) := by norm_num
    omega)

/-- Boolean varint round-trip. -/
theorem varUint1_rt (b : Bool) (rest : List Nat) :
    varUint1Decode (varUint1Encode b :: rest) = .ok (b, rest) := by
  cases b <;> rfl

/-! ### Tag-table and trailing-field lemmas -/

/-- What the tag byte alone reconstructs: an indexed reference comes back as
the `Ref(0)` placeholder, every other shape is recovered exactly. -/
def RefType.norm : RefType → RefType
  | .Ref _ => .Ref 0
  | r => r

/-- Tag-only reconstruction lifted to `ValueType`. -/
def ValueType.norm : ValueType → ValueType
  | .Ref r => .Ref r.norm
  | v => v

/-- Tag-only reconstruction lifted to `BlockType`. -/
def BlockType.norm : BlockType → BlockType
  | .Value v => .Value v.norm
  | .NoResult => .NoResult

/-- `NumType`'s table inverts its tag encoding. -/
theorem NumType.from_bits_to_bits_num (n : NumType) :
    NumType.from_bits n.to_bits = some n := by
  cases n <;> rfl

/-- `RefType`'s table recovers the tag-only part of a value from its tag. -/
theorem RefType.from_bits_to_bits_ref (r : RefType) :
    RefType.from_bits r.to_bits = some r.norm := by
  cases r <;> rfl

/-- `ValueType`'s table recovers the tag-only part of a value from its tag. -/
theorem ValueType.from_bits_to_bits_value (v : ValueType) :
    ValueType.from_bits v.to_bits = some v.norm := by
  cases v with
  | Num n => cases n <;> rfl
  | Ref r => cases r <;> rfl
  | V128 => rfl

/-- Every tag a value encodes to is in the signed 7-bit range. -/
theorem ValueType.to_bits_range (v : ValueType) :
    -64 ≤ v.to_bits ∧ v.to_bits < 64 := by
  cases v with
  | Num n => cases n <;> simp [ValueType.to_bits, NumType.to_bits,
      I32TYPE, I64TYPE, F32TYPE, F64TYPE]
  | Ref r => cases r <;> simp [ValueType.to_bits, RefType.to_bits,
      ANYFUNCTYPE, ANYREFTYPE, REFTYPE]
  | V128 => simp [ValueType.to_bits, V128TYPE]

/-- Reading the trailing field of a tag-only reconstruction over the written
trailing field restores the original reference. -/
theorem RefType.read_rest_write_rest_ref (r : RefType) (rest : List Nat)
    (h : r.wf) :
    RefType.read_rest r.norm (r.write_rest ++ rest) = .ok (r, rest) := by
  cases r with
  | Ref i =>
    simp only [RefType.wf, decide_eq_true_eq] at h
    simp [RefType.norm, RefType.write_rest, RefType.read_rest,
      varUint32_rt i rest h]
  | AnyRef => rfl
  | AnyFunc => rfl

/-- `ValueType.read_rest` over the written trailing field restores the
original value. -/
theorem ValueType.read_rest_write_rest_value (v : ValueType) (rest : List Nat)
    (h : v.wf) :
    ValueType.read_rest v.norm (v.write_rest ++ rest) = .ok (v, rest) := by
  cases v with
  | Ref r =>
    simp only [ValueType.wf] at h
    simp [ValueType.norm, ValueType.write_rest, ValueType.read_rest,
      RefType.read_rest_write_rest_ref r rest h]
  | Num n => rfl
  | V128 => rfl

/-! ### Round trips of the deserialize/serialize pairs -/

/-- `ValueType` round-trip: deserialize consumes exactly the encoding and
returns the value. -/
theorem ValueType.rt_value (v : ValueType) (rest : List Nat) (h : v.wf) :
    ValueType.deserialize (v.serialize ++ rest) = .ok (v, rest) := by
  obtain ⟨h1, h2⟩ := ValueType.to_bits_range v
  simp [ValueType.serialize, ValueType.deserialize,
    varInt7_rt v.to_bits (v.write_rest ++ rest) h1 h2,
    ValueType.from_bits_to_bits_value, ValueType.read_rest_write_rest_value v rest h]

/-- `RefType` round-trip. -/
theorem RefType.rt_ref (r : RefType) (rest : List Nat) (h : r.wf) :
    RefType.deserialize (r.serialize ++ rest) = .ok (r, rest) := by
  have hb : -64 ≤ r.to_bits ∧ r.to_bits < 64 :=
    ValueType.to_bits_range (.Ref r)
  simp [RefType.serialize, RefType.deserialize,
    varInt7_rt r.to_bits (r.write_rest ++ rest) hb.1 hb.2,
    RefType.from_bits_to_bits_ref, RefType.read_rest_write_rest_ref r rest h]

/-- Value-type tags are disjoint from the packed-width constants. -/
theorem ValueType.to_bits_ne_packed (v : ValueType) :
    v.to_bits ≠ PACKEDI8TYPE ∧ v.to_bits ≠ PACKEDI16TYPE := by
  cases v with
  | Num n => cases n <;> simp [ValueType.to_bits, NumType.to_bits,
      I32TYPE, I64TYPE, F32TYPE, F64TYPE, PACKEDI8TYPE, PACKEDI16TYPE]
  | Ref r => cases r <;> simp [ValueType.to_bits, RefType.to_bits,
      ANYFUNCTYPE, ANYREFTYPE, REFTYPE, PACKEDI8TYPE, PACKEDI16TYPE]
  | V128 => simp [ValueType.to_bits, V128TYPE, PACKEDI8TYPE, PACKEDI16TYPE]

/-- `StorageType` round-trip. -/
theorem StorageType.rt_storage (s : StorageType) (rest : List Nat) (h : s.wf) :
    StorageType.deserialize (s.serialize ++ rest) = .ok (s, rest) := by
  cases s with
  | PackedI8 =>
    simp [StorageType.serialize, StorageType.deserialize,
      varInt7_rt PACKEDI8TYPE rest (by norm_num [PACKEDI8TYPE])
        (by norm_num [PACKEDI8TYPE])]
  | PackedI16 =>
    have hdec := varInt7_rt PACKEDI16TYPE rest (by norm_num [PACKEDI16TYPE])
      (by norm_num [PACKEDI16TYPE])
    simp only [StorageType.serialize, List.cons_append, List.nil_append]
    simp only [StorageType.deserialize, hdec]
    norm_num [PACKEDI8TYPE, PACKEDI16TYPE]
  | Value v =>
    obtain ⟨h1, h2⟩ := ValueType.to_bits_range v
    obtain ⟨hp8, hp16⟩ := ValueType.to_bits_ne_packed v
    simp only [StorageType.wf] at h
    simp [StorageType.serialize, StorageType.deserialize,
      varInt7_rt v.to_bits (v.write_rest ++ rest) h1 h2, hp8, hp16,
      ValueType.from_bits_to_bits_value, ValueType.read_rest_write_rest_value v rest h]

/-- Value-type tags are distinct from the `NoResult` constant. -/
theorem ValueType.to_bits_ne_noresult (v : ValueType) :
    v.to_bits ≠ NORESULTTYPE := by
  cases v with
  | Num n => cases n <;> simp [ValueType.to_bits, NumType.to_bits,
      I32TYPE, I64TYPE, F32TYPE, F64TYPE, NORESULTTYPE]
  | Ref r => cases r <;> simp [ValueType.to_bits, RefType.to_bits,
      ANYFUNCTYPE, ANYREFTYPE, REFTYPE, NORESULTTYPE]
  | V128 => simp [ValueType.to_bits, V128TYPE, NORESULTTYPE]

/-- `BlockType` decode of an encoded block type: the tag byte alone is
written and read, so the result is the tag-only reconstruction. -/
theorem BlockType.decode_encode (b : BlockType) (rest : List Nat) :
    BlockType.deserialize (BlockType.serialize b ++ rest) = .ok (b.norm, rest) := by
  cases b with
  | NoResult =>
    simp [BlockType.serialize, BlockType.deserialize, BlockType.norm,
      varInt7_rt NORESULTTYPE rest (by norm_num [NORESULTTYPE])
        (by norm_num [NORESULTTYPE])]
  | Value v =>
    obtain ⟨h1, h2⟩ := ValueType.to_bits_range v
    simp [BlockType.serialize, BlockType.deserialize, BlockType.norm,
      varInt7_rt v.to_bits rest h1 h2, ValueType.to_bits_ne_noresult v,
      ValueType.from_bits_to_bits_value]

/-- `FieldType` round-trip. -/
theorem FieldType.rt_field (f : FieldType) (rest : List Nat) (h : f.wf) :
    FieldType.deserialize (f.serialize ++ rest) = .ok (f, rest) := by
  simp only [FieldType.wf] at h
  simp [FieldType.serialize, FieldType.deserialize,
    varUint1_rt f.mutable (f.elem.serialize ++ rest),
    StorageType.rt_storage f.elem rest h]

/-- The counted-list element loop inverts back-to-back element encodings when
every element round-trips. -/
theorem countedListDecodeAux_rt {α : Type}
    (dec : List Nat → Except Error (α × List Nat)) (enc : α → List Nat)
    (xs : List α) (rest : List Nat)
    (H : ∀ x ∈ xs, ∀ r, dec (enc x ++ r) = .ok (x, r)) :
    countedListDecodeAux dec xs.length
      (xs.foldr (fun a acc => enc a ++ acc) [] ++ rest) = .ok (xs, rest) := by
  induction xs with
  | nil => rfl
  | cons x xs ih =>
    simp only [List.length_cons, List.foldr_cons, List.append_assoc,
      countedListDecodeAux, H x (by simp),
      ih (fun y hy r => H y (by simp [hy]) r)]

/-- Counted-list round-trip: count prefix plus element encodings decode back
to the original sequence. -/
theorem countedList_rt {α : Type}
    (dec : List Nat → Except Error (α × List Nat)) (enc : α → List Nat)
    (xs : List α) (rest : List Nat) (hlen : xs.length < 2 ^ 32)
    (H : ∀ x ∈ xs, ∀ r, dec (enc x ++ r) = .ok (x, r)) :
    countedListDecode dec (countedListEncode enc xs ++ rest) = .ok (xs, rest) := by
  simp only [countedListEncode, countedListDecode, List.append_assoc,
    varUint32_rt xs.length _ hlen]
  exact countedListDecodeAux_rt dec enc xs rest H

/-- A single byte below 128 is a complete unsigned-32 varint. -/
theorem varUint32Decode_small (b : Nat) (rest : List Nat) (h : b < 128) :
    varUint32Decode (b :: rest) = .ok (b, rest) := by
  show varUintDecodeAux (4 + 1) (b :: rest) = .ok (b, rest)
  simp [varUintDecodeAux, h]

/-- `FunctionType` round-trip: the unsigned-1-bit presence flag written for
the return type reads back correctly as the unsigned-32 return count. -/
theorem FunctionType.rt_function (f : FunctionType) (rest : List Nat) (h : f.wf) :
    FunctionType.deserialize (f.serialize ++ rest) = .ok (f, rest) := by
  obtain ⟨params, ret⟩ := f
  cases ret with
  | none =>
    simp only [FunctionType.wf, Bool.and_eq_true, decide_eq_true_eq,
      List.all_eq_true] at h
    have hparams : ∀ x ∈ params, ∀ r,
        ValueType.deserialize (ValueType.serialize x ++ r) = .ok (x, r) :=
      fun x hx r => ValueType.rt_value x r (h.1.2 x hx)
    simp only [FunctionType.serialize, varUint1Encode, List.append_assoc,
      List.cons_append, List.nil_append]
    norm_num
    simp only [FunctionType.deserialize,
      countedList_rt ValueType.deserialize ValueType.serialize params _
        h.1.1 hparams]
    rw [varUint32Decode_small 0 rest (by norm_num)]
    norm_num
  | some v =>
    simp only [FunctionType.wf, Bool.and_eq_true, decide_eq_true_eq,
      List.all_eq_true] at h
    have hparams : ∀ x ∈ params, ∀ r,
        ValueType.deserialize (ValueType.serialize x ++ r) = .ok (x, r) :=
      fun x hx r => ValueType.rt_value x r (h.1.2 x hx)
    simp only [FunctionType.serialize, varUint1Encode, List.append_assoc,
      List.cons_append]
    norm_num
    simp only [FunctionType.deserialize,
      countedList_rt ValueType.deserialize ValueType.serialize params _
        h.1.1 hparams]
    rw [varUint32Decode_small 1 _ (by norm_num)]
    simp [ValueType.rt_value v rest h.2]

/-- `StructType` round-trip. -/
theorem StructType.rt_struct (s : StructType) (rest : List Nat) (h : s.wf) :
    StructType.deserialize (s.serialize ++ rest) = .ok (s, rest) := by
  obtain ⟨fields⟩ := s
  simp only [StructType.wf, Bool.and_eq_true, decide_eq_true_eq,
    List.all_eq_true] at h
  simp only [StructType.serialize, StructType.deserialize,
    countedList_rt FieldType.deserialize FieldType.serialize fields rest h.1
      (fun x hx r => FieldType.rt_field x r (h.2 x hx))]

/-- `ArrayType` round-trip. -/
theorem ArrayType.rt_array (a : ArrayType) (rest : List Nat) (h : a.wf) :
    ArrayType.deserialize (a.serialize ++ rest) = .ok (a, rest) := by
  simp only [ArrayType.wf] at h
  simp only [ArrayType.serialize, ArrayType.deserialize,
    FieldType.rt_field a.elem rest h]

/-- `Type` round-trip. -/
theorem Type'.rt_type (t : Type') (rest : List Nat) (h : t.wf) :
    Type'.deserialize (t.serialize ++ rest) = .ok (t, rest) := by
  cases t with
  | Function f =>
    simp only [Type'.wf] at h
    have hdec := varInt7_rt FUNCTIONTYPE (f.serialize ++ rest)
      (by norm_num [FUNCTIONTYPE]) (by norm_num [FUNCTIONTYPE])
    simp only [Type'.serialize, List.cons_append]
    simp only [Type'.deserialize, hdec]
    norm_num [FunctionType.rt_function f rest h, FUNCTIONTYPE, STRUCTTYPE, ARRAYTYPE]
  | Struct s =>
    simp only [Type'.wf] at h
    have hdec := varInt7_rt STRUCTTYPE (s.serialize ++ rest)
      (by norm_num [STRUCTTYPE]) (by norm_num [STRUCTTYPE])
    simp only [Type'.serialize, List.cons_append]
    simp only [Type'.deserialize, hdec]
    norm_num [StructType.rt_struct s rest h, FUNCTIONTYPE, STRUCTTYPE, ARRAYTYPE]
  | Array a =>
    simp only [Type'.wf] at h
    have hdec := varInt7_rt ARRAYTYPE (a.serialize ++ rest)
      (by norm_num [ARRAYTYPE]) (by norm_num [ARRAYTYPE])
    simp only [Type'.serialize, List.cons_append]
    simp only [Type'.deserialize, hdec]
    norm_num [ArrayType.rt_array a rest h, FUNCTIONTYPE, STRUCTTYPE, ARRAYTYPE]

/-! ### Tag dispatch and error behaviour -/

/-- Closed form of `ValueType`'s combined tag table. -/
theorem ValueType.from_bits_eq (t : Int) :
    ValueType.from_bits t =
      if t = V128TYPE then some .V128
      else if t = I32TYPE then some (.Num .I32)
      else if t = I64TYPE then some (.Num .I64)
      else if t = F32TYPE then some (.Num .F32)
      else if t = F64TYPE then some (.Num .F64)
      else if t = ANYFUNCTYPE then some (.Ref .AnyFunc)
      else if t = ANYREFTYPE then some (.Ref .AnyRef)
      else if t = REFTYPE then some (.Ref (.Ref 0))
      else none := by
  simp only [ValueType.from_bits, NumType.from_bits, RefType.from_bits]
  split_ifs <;> rfl

/-- A recognized value-type tag lies in the signed 7-bit range. -/
theorem ValueType.from_bits_range (t : Int) (v : ValueType)
    (h : ValueType.from_bits t = some v) : -64 ≤ t ∧ t < 64 := by
  rw [ValueType.from_bits_eq] at h
  split_ifs at h <;>
    simp_all [V128TYPE, I32TYPE, I64TYPE, F32TYPE, F64TYPE,
      ANYFUNCTYPE, ANYREFTYPE, REFTYPE]

/-- The unsigned varint decoder never reports an unknown value type. -/
theorem varUintDecodeAux_not_unknown (fuel : Nat) :
    ∀ (bs : List Nat) (i : Int),
      varUintDecodeAux fuel bs ≠ .error (.UnknownValueType i) := by
  induction fuel with
  | zero => intro bs i; cases bs <;> simp [varUintDecodeAux]
  | succ fuel ih =>
    intro bs i
    cases bs with
    | nil => simp [varUintDecodeAux]
    | cons b rest =>
      simp only [varUintDecodeAux]
      split_ifs with hb
      · simp
      · cases hrec : varUintDecodeAux fuel rest with
        | ok p => simp
        | error e =>
          simp only [ne_eq, Except.error.injEq]
          intro hcon
          exact ih rest i (by rw [hrec, hcon])

/-- Reading a trailing reference index never reports an unknown value type. -/
theorem RefType.read_rest_not_unknown_ref (r : RefType) (bs : List Nat) (i : Int) :
    r.read_rest bs ≠ .error (.UnknownValueType i) := by
  cases r with
  | Ref j =>
    simp only [RefType.read_rest]
    cases hrec : varUint32Decode bs with
    | ok p => simp
    | error e =>
      simp only [ne_eq, Except.error.injEq]
      intro hcon
      exact varUintDecodeAux_not_unknown 5 bs i
        (by show varUint32Decode bs = _; rw [hrec, hcon])
  | AnyRef => simp [RefType.read_rest]
  | AnyFunc => simp [RefType.read_rest]

/-- `ValueType.read_rest` never reports an unknown value type. -/
theorem ValueType.read_rest_not_unknown_value (v : ValueType) (bs : List Nat) (i : Int) :
    v.read_rest bs ≠ .error (.UnknownValueType i) := by
  cases v with
  | Ref r =>
    simp only [ValueType.read_rest]
    cases hrec : RefType.read_rest r bs with
    | ok p => simp
    | error e =>
      simp only [ne_eq, Except.error.injEq]
      intro hcon
      exact RefType.read_rest_not_unknown_ref r bs i (by rw [hrec, hcon])
  | Num n => simp [ValueType.read_rest]
  | V128 => simp [ValueType.read_rest]

/-- An unrecognized tag makes `ValueType::deserialize` fail with
`UnknownValueType` carrying exactly that tag. -/
theorem ValueType.deserialize_unknown_value (t : Int) (rest : List Nat)
    (h1 : -64 ≤ t) (h2 : t < 64) (h : ValueType.from_bits t = none) :
    ValueType.deserialize (varInt7Encode t :: rest) =
      .error (.UnknownValueType t) := by
  simp [ValueType.deserialize, varInt7_rt t rest h1 h2, h]

/-- A recognized tag never makes `ValueType::deserialize` fail with
`UnknownValueType`, whatever follows it. -/
theorem ValueType.deserialize_known_value (t : Int) (v : ValueType) (rest : List Nat)
    (h : ValueType.from_bits t = some v) (i : Int) :
    ValueType.deserialize (varInt7Encode t :: rest) ≠
      .error (.UnknownValueType i) := by
  obtain ⟨h1, h2⟩ := ValueType.from_bits_range t v h
  simp only [ValueType.deserialize, varInt7_rt t rest h1 h2, h]
  exact ValueType.read_rest_not_unknown_value v rest i

/-- An unrecognized tag makes `StorageType::deserialize` fail with
`UnknownValueType` carrying exactly that tag. -/
theorem StorageType.deserialize_unknown_storage (t : Int) (rest : List Nat)
    (h1 : -64 ≤ t) (h2 : t < 64) (hp8 : t ≠ PACKEDI8TYPE)
    (hp16 : t ≠ PACKEDI16TYPE) (h : ValueType.from_bits t = none) :
    StorageType.deserialize (varInt7Encode t :: rest) =
      .error (.UnknownValueType t) := by
  simp [StorageType.deserialize, varInt7_rt t rest h1 h2, hp8, hp16, h]

/-- A recognized tag never makes `StorageType::deserialize` fail with
`UnknownValueType`, whatever follows it. -/
theorem StorageType.deserialize_known_storage (t : Int) (rest : List Nat)
    (h1 : -64 ≤ t) (h2 : t < 64)
    (h : t = PACKEDI8TYPE ∨ t = PACKEDI16TYPE ∨
      ∃ v, ValueType.from_bits t = some v) (i : Int) :
    StorageType.deserialize (varInt7Encode t :: rest) ≠
      .error (.UnknownValueType i) := by
  simp only [StorageType.deserialize, varInt7_rt t rest h1 h2]
  rcases h with h | h | ⟨v, hv⟩
  · simp [h]
  · simp only [h]
    split_ifs <;> simp
  · split_ifs with hp8 hp16
    · simp
    · simp
    · simp only [hv]
      cases hrec : ValueType.read_rest v rest with
      | ok p => simp
      | error e =>
        simp only [ne_eq, Except.error.injEq]
        intro hcon
        exact ValueType.read_rest_not_unknown_value v rest i (by rw [hrec, hcon])

/-- An unrecognized tag makes `BlockType::deserialize` fail with
`UnknownValueType` carrying exactly that tag. -/
theorem BlockType.deserialize_unknown_block (t : Int) (rest : List Nat)
    (h1 : -64 ≤ t) (h2 : t < 64) (hnr : t ≠ NORESULTTYPE)
    (h : ValueType.from_bits t = none) :
    BlockType.deserialize (varInt7Encode t :: rest) =
      .error (.UnknownValueType t) := by
  simp [BlockType.deserialize, varInt7_rt t rest h1 h2, hnr, h]

/-- A recognized tag makes `BlockType::deserialize` succeed outright: only
the tag byte is consumed. -/
theorem BlockType.deserialize_known_block (t : Int) (rest : List Nat)
    (h : t = NORESULTTYPE ∨ ∃ v, ValueType.from_bits t = some v) :
    ∃ b, BlockType.deserialize (varInt7Encode t :: rest) = .ok (b, rest) := by
  rcases h with h | ⟨v, hv⟩
  · subst h
    exact ⟨.NoResult, by simp [BlockType.deserialize,
      varInt7_rt NORESULTTYPE rest (by norm_num [NORESULTTYPE])
        (by norm_num [NORESULTTYPE])]⟩
  · obtain ⟨h1, h2⟩ := ValueType.from_bits_range t v hv
    refine ⟨.Value v, ?_⟩
    simp only [BlockType.deserialize, varInt7_rt t rest h1 h2]
    have hnr : t ≠ NORESULTTYPE := by
      rw [ValueType.from_bits_eq] at hv
      split_ifs at hv <;> simp_all [NORESULTTYPE, V128TYPE, I32TYPE,
        I64TYPE, F32TYPE, F64TYPE, ANYFUNCTYPE, ANYREFTYPE, REFTYPE]
    simp [hnr, hv]

/-- An unrecognized discriminant makes `Type::deserialize` fail with
`UnknownValueType` carrying exactly that discriminant. -/
theorem Type'.deserialize_unknown_type (t : Int) (rest : List Nat)
    (h1 : -64 ≤ t) (h2 : t < 64) (hf : t ≠ FUNCTIONTYPE)
    (hs : t ≠ STRUCTTYPE) (ha : t ≠ ARRAYTYPE) :
    Type'.deserialize (varInt7Encode t :: rest) =
      .error (.UnknownValueType t) := by
  simp [Type'.deserialize, varInt7_rt t rest h1 h2, hf, hs, ha]

/-- The function discriminant delegates `Type::deserialize` to
`FunctionType::deserialize` on the remaining bytes. -/
theorem Type'.deserialize_function_tag (rest : List Nat) :
    Type'.deserialize (varInt7Encode FUNCTIONTYPE :: rest) =
      (match FunctionType.deserialize rest with
       | .ok (f, r) => .ok (.Function f, r)
       | .error e => .error e) := by
  have hdec := varInt7_rt FUNCTIONTYPE rest (by norm_num [FUNCTIONTYPE])
    (by norm_num [FUNCTIONTYPE])
  simp [Type'.deserialize, hdec]

/-- The struct discriminant delegates `Type::deserialize` to
`StructType::deserialize` on the remaining bytes. -/
theorem Type'.deserialize_struct_tag (rest : List Nat) :
    Type'.deserialize (varInt7Encode STRUCTTYPE :: rest) =
      (match StructType.deserialize rest with
       | .ok (s, r) => .ok (.Struct s, r)
       | .error e => .error e) := by
  have hdec := varInt7_rt STRUCTTYPE rest (by norm_num [STRUCTTYPE])
    (by norm_num [STRUCTTYPE])
  simp only [Type'.deserialize, hdec]
  norm_num [FUNCTIONTYPE, STRUCTTYPE, ARRAYTYPE]

/-- The array discriminant delegates `Type::deserialize` to
`ArrayType::deserialize` on the remaining bytes. -/
theorem Type'.deserialize_array_tag (rest : List Nat) :
    Type'.deserialize (varInt7Encode ARRAYTYPE :: rest) =
      (match ArrayType.deserialize rest with
       | .ok (a, r) => .ok (.Array a, r)
       | .error e => .error e) := by
  have hdec := varInt7_rt ARRAYTYPE rest (by norm_num [ARRAYTYPE])
    (by norm_num [ARRAYTYPE])
  simp only [Type'.deserialize, hdec]
  norm_num [FUNCTIONTYPE, STRUCTTYPE, ARRAYTYPE]

/-- A recognized value-type tag is not a packed-width constant. -/
theorem ValueType.from_bits_ne_packed_tag (t : Int) (v : ValueType)
    (h : ValueType.from_bits t = some v) :
    t ≠ PACKEDI8TYPE ∧ t ≠ PACKEDI16TYPE := by
  rw [ValueType.from_bits_eq] at h
  split_ifs at h <;>
    simp_all [V128TYPE, I32TYPE, I64TYPE, F32TYPE, F64TYPE,
      ANYFUNCTYPE, ANYREFTYPE, REFTYPE, PACKEDI8TYPE, PACKEDI16TYPE]

/-- A recognized non-`NoResult` tag takes `BlockType::deserialize` through
`ValueType`'s tag table, consuming only the tag byte. -/
theorem BlockType.deserialize_vt (t : Int) (v : ValueType) (rest : List Nat)
    (hv : ValueType.from_bits t = some v) :
    BlockType.deserialize (varInt7Encode t :: rest) = .ok (.Value v, rest) := by
  obtain ⟨h1, h2⟩ := ValueType.from_bits_range t v hv
  have hnr : t ≠ NORESULTTYPE := by
    rw [ValueType.from_bits_eq] at hv
    split_ifs at hv <;> simp_all [NORESULTTYPE, V128TYPE, I32TYPE,
      I64TYPE, F32TYPE, F64TYPE, ANYFUNCTYPE, ANYREFTYPE, REFTYPE]
  simp [BlockType.deserialize, varInt7_rt t rest h1 h2, hnr, hv]

/-- The tag written for a value type does not depend on a reference index. -/
theorem ValueType.to_bits_norm (v : ValueType) : v.norm.to_bits = v.to_bits := by
  cases v with
  | Ref r => cases r <;> rfl
  | Num n => rfl
  | V128 => rfl

/-- The tag-only reconstruction of a block type serializes to the same byte. -/
theorem BlockType.serialize_norm (b : BlockType) :
    BlockType.serialize b.norm = BlockType.serialize b := by
  cases b with
  | NoResult => rfl
  | Value v => simp [BlockType.serialize, BlockType.norm, ValueType.to_bits_norm]

/-! ### Claims -/

/-- **C1**, counterexample: the claimed round-trip fails for
`BlockType::Value(ValueType::Ref(RefType::Ref(7)))` — deserializing its
serialization yields the index-0 value instead. -/
theorem C1_counterexample :
    BlockType.deserialize
        (BlockType.serialize (.Value (.Ref (.Ref 7)))) ≠
      .ok (.Value (.Ref (.Ref 7)), []) ∧
    BlockType.deserialize
        (BlockType.serialize (.Value (.Ref (.Ref 7)))) =
      .ok (.Value (.Ref (.Ref 0)), []) := by
  constructor <;> decide

/-- **C1** (amended): deserializing the serialization of a constructible
value yields the value back for `NumType` (tag table), `RefType`,
`ValueType`, `StorageType`, `FieldType`, `FunctionType`, `StructType`,
`ArrayType` and `Type`; for `BlockType` it holds for every variant except
`Value(Ref(Ref(i)))` with `i ≠ 0` (whose serialization drops the index and
decodes to the index-0 value). -/
theorem C1_roundtrip :
    (∀ n : NumType, NumType.from_bits n.to_bits = some n) ∧
    (∀ (r : RefType) (rest : List Nat), r.wf →
      RefType.deserialize (r.serialize ++ rest) = .ok (r, rest)) ∧
    (∀ (v : ValueType) (rest : List Nat), v.wf →
      ValueType.deserialize (v.serialize ++ rest) = .ok (v, rest)) ∧
    (∀ (s : StorageType) (rest : List Nat), s.wf →
      StorageType.deserialize (s.serialize ++ rest) = .ok (s, rest)) ∧
    (∀ (b : BlockType) (rest : List Nat),
      (∀ i : Nat, i ≠ 0 → b ≠ .Value (.Ref (.Ref i))) →
      BlockType.deserialize (BlockType.serialize b ++ rest) = .ok (b, rest)) ∧
    (∀ (f : FieldType) (rest : List Nat), f.wf →
      FieldType.deserialize (f.serialize ++ rest) = .ok (f, rest)) ∧
    (∀ (f : FunctionType) (rest : List Nat), f.wf →
      FunctionType.deserialize (f.serialize ++ rest) = .ok (f, rest)) ∧
    (∀ (s : StructType) (rest : List Nat), s.wf →
      StructType.deserialize (s.serialize ++ rest) = .ok (s, rest)) ∧
    (∀ (a : ArrayType) (rest : List Nat), a.wf →
      ArrayType.deserialize (a.serialize ++ rest) = .ok (a, rest)) ∧
    (∀ (t : Type') (rest : List Nat), t.wf →
      Type'.deserialize (t.serialize ++ rest) = .ok (t, rest)) := by
  refine ⟨NumType.from_bits_to_bits_num, RefType.rt_ref, ValueType.rt_value,
    StorageType.rt_storage, ?_, FieldType.rt_field, FunctionType.rt_function, StructType.rt_struct,
    ArrayType.rt_array, Type'.rt_type⟩
  intro b rest h
  rw [BlockType.decode_encode]
  have : b.norm = b := by
    cases b with
    | NoResult => rfl
    | Value v =>
      cases v with
      | Ref r =>
        cases r with
        | Ref i =>
          by_cases hi : i = 0
          · subst hi; rfl
          · exact absurd rfl (h i hi)
        | AnyRef => rfl
        | AnyFunc => rfl
      | Num n => rfl
      | V128 => rfl
  rw [this]

/-- **C1** witness: the amended round-trip at a concrete struct type with an
indexed reference field. -/
theorem C1_roundtrip_witness :
    Type'.deserialize
        (Type'.serialize (.Struct ⟨[⟨.Value (.Ref (.Ref 7)), true⟩]⟩) ++ []) =
      .ok (.Struct ⟨[⟨.Value (.Ref (.Ref 7)), true⟩]⟩, []) :=
  C1_roundtrip.2.2.2.2.2.2.2.2.2
    (.Struct ⟨[⟨.Value (.Ref (.Ref 7)), true⟩]⟩) [] (by decide)

/-- **C2**, counterexample: `BlockType::deserialize` of the indexed-reference
tag followed by the varint encoding of 7 does not read the varint — the 7 is
left in the stream and the decoded index is 0, not 7. -/
theorem C2_counterexample :
    BlockType.deserialize (varInt7Encode REFTYPE :: varUint32Encode 7) =
      .ok (.Value (.Ref (.Ref 0)), varUint32Encode 7) ∧
    BlockType.deserialize (varInt7Encode REFTYPE :: varUint32Encode 7) ≠
      .ok (.Value (.Ref (.Ref 7)), []) := by
  constructor <;> decide

/-- **C2** (amended): a recognized non-`NoResult` tag takes
`BlockType::deserialize` through `ValueType`'s tag table but *without* the
trailing-field rule: the indexed-reference tag consumes no byte beyond the
tag and always yields `BlockType::Value(ValueType::Ref(RefType::Ref(0)))`,
whatever follows. -/
theorem C2_block_delegation :
    (∀ (t : Int) (v : ValueType) (rest : List Nat),
      ValueType.from_bits t = some v →
      BlockType.deserialize (varInt7Encode t :: rest) = .ok (.Value v, rest)) ∧
    (∀ rest : List Nat,
      BlockType.deserialize (varInt7Encode REFTYPE :: rest) =
        .ok (.Value (.Ref (.Ref 0)), rest)) :=
  ⟨BlockType.deserialize_vt,
   fun rest => BlockType.deserialize_vt REFTYPE (.Ref (.Ref 0)) rest (by decide)⟩

/-- **C2** witness: the delegation at the `anyfunc` tag with a nonempty
remainder. -/
theorem C2_block_delegation_witness :
    BlockType.deserialize (varInt7Encode ANYFUNCTYPE :: [3]) =
      .ok (.Value (.Ref .AnyFunc), [3]) :=
  C2_block_delegation.1 ANYFUNCTYPE (.Ref .AnyFunc) [3] (by decide)

/-- **C10**: `BlockType::serialize` writes exactly one tag byte and nothing
else; an indexed reference serializes to the bare `-0x12` tag with the index
never written, and `BlockType::deserialize` of that tag consumes nothing
beyond it and always yields index 0. -/
theorem C10_block_tag_only :
    (∀ b : BlockType, (BlockType.serialize b).length = 1) ∧
    (∀ i : Nat, BlockType.serialize (.Value (.Ref (.Ref i))) =
      [varInt7Encode REFTYPE]) ∧
    (∀ rest : List Nat,
      BlockType.deserialize (varInt7Encode REFTYPE :: rest) =
        .ok (.Value (.Ref (.Ref 0)), rest)) :=
  ⟨fun b => by cases b <;> rfl,
   fun i => rfl,
   fun rest => BlockType.deserialize_vt REFTYPE (.Ref (.Ref 0)) rest (by decide)⟩

/-- **C3**: for every well-formed encoding (a byte sequence produced by the
canonical grammar, i.e. the serializer, from a constructible value),
serializing the deserialized value reproduces the bytes exactly — for
`BlockType` via the index-0 reconstruction which re-encodes to the same tag
byte, and for `FunctionType` despite the unsigned-32/unsigned-1 count
asymmetry. -/
theorem C3_encode_decode :
    (∀ r : RefType, r.wf → ∃ w : RefType,
      RefType.deserialize r.serialize = .ok (w, []) ∧ w.serialize = r.serialize) ∧
    (∀ v : ValueType, v.wf → ∃ w : ValueType,
      ValueType.deserialize v.serialize = .ok (w, []) ∧
        w.serialize = v.serialize) ∧
    (∀ s : StorageType, s.wf → ∃ w : StorageType,
      StorageType.deserialize s.serialize = .ok (w, []) ∧
        w.serialize = s.serialize) ∧
    (∀ b : BlockType, ∃ w : BlockType,
      BlockType.deserialize (BlockType.serialize b) = .ok (w, []) ∧
        BlockType.serialize w = BlockType.serialize b) ∧
    (∀ f : FieldType, f.wf → ∃ w : FieldType,
      FieldType.deserialize f.serialize = .ok (w, []) ∧
        w.serialize = f.serialize) ∧
    (∀ f : FunctionType, f.wf → ∃ w : FunctionType,
      FunctionType.deserialize f.serialize = .ok (w, []) ∧
        w.serialize = f.serialize) ∧
    (∀ s : StructType, s.wf → ∃ w : StructType,
      StructType.deserialize s.serialize = .ok (w, []) ∧
        w.serialize = s.serialize) ∧
    (∀ a : ArrayType, a.wf → ∃ w : ArrayType,
      ArrayType.deserialize a.serialize = .ok (w, []) ∧
        w.serialize = a.serialize) ∧
    (∀ t : Type', t.wf → ∃ w : Type',
      Type'.deserialize t.serialize = .ok (w, []) ∧
        w.serialize = t.serialize) := by
  refine ⟨fun r h => ⟨r, ?_, rfl⟩, fun v h => ⟨v, ?_, rfl⟩,
    fun s h => ⟨s, ?_, rfl⟩, fun b => ⟨b.norm, ?_, BlockType.serialize_norm b⟩,
    fun f h => ⟨f, ?_, rfl⟩, fun f h => ⟨f, ?_, rfl⟩, fun s h => ⟨s, ?_, rfl⟩,
    fun a h => ⟨a, ?_, rfl⟩, fun t h => ⟨t, ?_, rfl⟩⟩
  · simpa using RefType.rt_ref r [] h
  · simpa using ValueType.rt_value v [] h
  · simpa using StorageType.rt_storage s [] h
  · simpa using BlockType.decode_encode b []
  · simpa using FieldType.rt_field f [] h
  · simpa using FunctionType.rt_function f [] h
  · simpa using StructType.rt_struct s [] h
  · simpa using ArrayType.rt_array a [] h
  · simpa using Type'.rt_type t [] h

/-- **C3** witness: the function-type component at a concrete signature,
where deserialize reads the return count as an unsigned-32 varint and
serialize writes the unsigned-1-bit flag. -/
theorem C3_encode_decode_witness :
    ∃ w : FunctionType,
      FunctionType.deserialize
          (FunctionType.serialize ⟨[.Num .I64], some (.Num .I32)⟩) =
        .ok (w, []) ∧
      w.serialize = FunctionType.serialize ⟨[.Num .I64], some (.Num .I32)⟩ :=
  C3_encode_decode.2.2.2.2.2.1 ⟨[.Num .I64], some (.Num .I32)⟩ (by decide)

/-- **C4**: at each dispatch level (`ValueType`, `StorageType`, `BlockType`,
the `Type` discriminant) an unrecognized signed 7-bit tag fails with
`UnknownValueType` carrying exactly that tag; a recognized tag never
produces an `UnknownValueType` failure at that dispatch level — for the
first three outright, for the `Type` discriminant because it hands the
remaining bytes to the selected sub-decoder. -/
theorem C4_tag_rejection :
    (∀ (t : Int) (rest : List Nat), -64 ≤ t → t < 64 →
      ValueType.from_bits t = none →
      ValueType.deserialize (varInt7Encode t :: rest) =
        .error (.UnknownValueType t)) ∧
    (∀ (t : Int) (v : ValueType) (rest : List Nat) (i : Int),
      ValueType.from_bits t = some v →
      ValueType.deserialize (varInt7Encode t :: rest) ≠
        .error (.UnknownValueType i)) ∧
    (∀ (t : Int) (rest : List Nat), -64 ≤ t → t < 64 →
      t ≠ PACKEDI8TYPE → t ≠ PACKEDI16TYPE → ValueType.from_bits t = none →
      StorageType.deserialize (varInt7Encode t :: rest) =
        .error (.UnknownValueType t)) ∧
    (∀ (t : Int) (rest : List Nat) (i : Int), -64 ≤ t → t < 64 →
      (t = PACKEDI8TYPE ∨ t = PACKEDI16TYPE ∨
        ∃ v, ValueType.from_bits t = some v) →
      StorageType.deserialize (varInt7Encode t :: rest) ≠
        .error (.UnknownValueType i)) ∧
    (∀ (t : Int) (rest : List Nat), -64 ≤ t → t < 64 →
      t ≠ NORESULTTYPE → ValueType.from_bits t = none →
      BlockType.deserialize (varInt7Encode t :: rest) =
        .error (.UnknownValueType t)) ∧
    (∀ (t : Int) (rest : List Nat),
      (t = NORESULTTYPE ∨ ∃ v, ValueType.from_bits t = some v) →
      ∃ b, BlockType.deserialize (varInt7Encode t :: rest) = .ok (b, rest)) ∧
    (∀ (t : Int) (rest : List Nat), -64 ≤ t → t < 64 →
      t ≠ FUNCTIONTYPE → t ≠ STRUCTTYPE → t ≠ ARRAYTYPE →
      Type'.deserialize (varInt7Encode t :: rest) =
        .error (.UnknownValueType t)) ∧
    (∀ rest : List Nat,
      Type'.deserialize (varInt7Encode FUNCTIONTYPE :: rest) =
        (match FunctionType.deserialize rest with
         | .ok (f, r) => .ok (.Function f, r)
         | .error e => .error e) ∧
      Type'.deserialize (varInt7Encode STRUCTTYPE :: rest) =
        (match StructType.deserialize rest with
         | .ok (s, r) => .ok (.Struct s, r)
         | .error e => .error e) ∧
      Type'.deserialize (varInt7Encode ARRAYTYPE :: rest) =
        (match ArrayType.deserialize rest with
         | .ok (a, r) => .ok (.Array a, r)
         | .error e => .error e)) :=
  ⟨ValueType.deserialize_unknown_value,
   fun t v rest i hv => ValueType.deserialize_known_value t v rest hv i,
   StorageType.deserialize_unknown_storage,
   fun t rest i h1 h2 h => StorageType.deserialize_known_storage t rest h1 h2 h i,
   BlockType.deserialize_unknown_block,
   fun t rest h => BlockType.deserialize_known_block t rest h,
   Type'.deserialize_unknown_type,
   fun rest => ⟨Type'.deserialize_function_tag rest,
     Type'.deserialize_struct_tag rest, Type'.deserialize_array_tag rest⟩⟩

/-- **C4** witness: tag 0 is unrecognized at the `ValueType` level and is
rejected carrying exactly 0. -/
theorem C4_tag_rejection_witness :
    ValueType.deserialize (varInt7Encode 0 :: [5]) =
      .error (.UnknownValueType 0) :=
  C4_tag_rejection.1 0 [5] (by norm_num) (by norm_num) (by decide)

/-- **C5**: after the parameter list, `FunctionType::deserialize` reads an
unsigned-32 varint return count `n`: `n = 0` gives no return type, `n = 1`
reads exactly one value type, and every `n ≥ 2` fails with the generic
arity error without consuming any byte after the count (the result is the
same for every remainder). -/
theorem C5_return_arity :
    ∀ (params : List ValueType) (rest : List Nat),
      params.length < 2 ^ 32 → (∀ x ∈ params, x.wf) →
      (FunctionType.deserialize (countedListEncode ValueType.serialize params ++
          varUint32Encode 0 ++ rest) = .ok (⟨params, none⟩, rest)) ∧
      (∀ v : ValueType, v.wf →
        FunctionType.deserialize (countedListEncode ValueType.serialize params ++
          varUint32Encode 1 ++ (v.serialize ++ rest)) =
          .ok (⟨params, some v⟩, rest)) ∧
      (∀ n : Nat, 2 ≤ n → n < 2 ^ 32 →
        FunctionType.deserialize (countedListEncode ValueType.serialize params ++
          varUint32Encode n ++ rest) =
          .error (.Other "Return types length should be 0 or 1")) := by
  intro params rest hlen hp
  have hparams : ∀ x ∈ params, ∀ r,
      ValueType.deserialize (ValueType.serialize x ++ r) = .ok (x, r) :=
    fun x hx r => ValueType.rt_value x r (hp x hx)
  refine ⟨?_, ?_, ?_⟩
  · simp only [List.append_assoc, FunctionType.deserialize,
      countedList_rt ValueType.deserialize ValueType.serialize params _
        hlen hparams,
      varUint32_rt 0 rest (by norm_num)]
    norm_num
  · intro v hv
    simp only [List.append_assoc, FunctionType.deserialize,
      countedList_rt ValueType.deserialize ValueType.serialize params _
        hlen hparams,
      varUint32_rt 1 _ (by norm_num), ValueType.rt_value v rest hv]
    norm_num
  · intro n hn2 hn
    simp only [List.append_assoc, FunctionType.deserialize,
      countedList_rt ValueType.deserialize ValueType.serialize params _
        hlen hparams,
      varUint32_rt n rest hn]
    have h1 : n ≠ 1 := by omega
    have h0 : n ≠ 0 := by omega
    simp [h1, h0]

/-- **C5** witness: return count 2 over an empty parameter list is rejected
with the arity error, with bytes left in the stream. -/
theorem C5_return_arity_witness :
    FunctionType.deserialize (countedListEncode ValueType.serialize [] ++
        varUint32Encode 2 ++ [9]) =
      .error (.Other "Return types length should be 0 or 1") :=
  (C5_return_arity [] [9] (by norm_num) (by simp)).2.2 2 (by norm_num)
    (by norm_num)

/-- **C6**: `RefType::Ref(7)` serializes to its tag byte followed by the
unsigned-32 varint encoding of 7 and deserializes back to itself, and the
same holds for every 32-bit index. -/
theorem C6_ref_roundtrip :
    (RefType.serialize (.Ref 7) =
      varInt7Encode REFTYPE :: varUint32Encode 7) ∧
    (RefType.deserialize (varInt7Encode REFTYPE :: varUint32Encode 7) =
      .ok (.Ref 7, [])) ∧
    (∀ i : Nat, i < 2 ^ 32 →
      RefType.serialize (.Ref i) =
        varInt7Encode REFTYPE :: varUint32Encode i ∧
      RefType.deserialize (RefType.serialize (.Ref i)) = .ok (.Ref i, [])) := by
  refine ⟨rfl, by decide, fun i hi => ⟨rfl, ?_⟩⟩
  simpa using RefType.rt_ref (.Ref i) [] (by simpa [RefType.wf] using hi)

/-- **C6** witness: the general index statement at index 300 (a two-group
varint). -/
theorem C6_ref_roundtrip_witness :
    RefType.serialize (.Ref 300) =
      varInt7Encode REFTYPE :: varUint32Encode 300 ∧
    RefType.deserialize (RefType.serialize (.Ref 300)) = .ok (.Ref 300, []) :=
  C6_ref_roundtrip.2.2 300 (by norm_num)

/-- **C7**: `StorageType::deserialize` resolves one signed 7-bit tag: the
packed constants are tag-only (the remainder is untouched), every other
recognized tag is delegated to `ValueType`'s table together with its
trailing-field rule, and in particular the indexed-reference tag reads the
trailing unsigned-32 varint into the resulting `StorageType::Value`. -/
theorem C7_storage_dispatch :
    (∀ rest : List Nat,
      StorageType.deserialize (varInt7Encode PACKEDI8TYPE :: rest) =
        .ok (.PackedI8, rest)) ∧
    (∀ rest : List Nat,
      StorageType.deserialize (varInt7Encode PACKEDI16TYPE :: rest) =
        .ok (.PackedI16, rest)) ∧
    (∀ (t : Int) (v : ValueType) (rest : List Nat),
      ValueType.from_bits t = some v →
      StorageType.deserialize (varInt7Encode t :: rest) =
        (match ValueType.read_rest v rest with
         | .ok (w, r) => .ok (.Value w, r)
         | .error e => .error e)) ∧
    (∀ (i : Nat) (rest : List Nat), i < 2 ^ 32 →
      StorageType.deserialize
          (varInt7Encode REFTYPE :: (varUint32Encode i ++ rest)) =
        .ok (.Value (.Ref (.Ref i)), rest)) := by
  refine ⟨fun rest => StorageType.rt_storage .PackedI8 rest rfl,
    fun rest => StorageType.rt_storage .PackedI16 rest rfl, ?_, ?_⟩
  · intro t v rest hv
    obtain ⟨h1, h2⟩ := ValueType.from_bits_range t v hv
    obtain ⟨hp8, hp16⟩ := ValueType.from_bits_ne_packed_tag t v hv
    simp [StorageType.deserialize, varInt7_rt t rest h1 h2, hp8, hp16, hv]
  · intro i rest hi
    have h := StorageType.rt_storage (.Value (.Ref (.Ref i))) rest
      (by simpa [StorageType.wf, ValueType.wf, RefType.wf] using hi)
    simpa [StorageType.serialize, ValueType.to_bits, RefType.to_bits,
      ValueType.write_rest, RefType.write_rest] using h

/-- **C7** witness: the indexed-reference delegation at index 9 with a
nonempty remainder. -/
theorem C7_storage_dispatch_witness :
    StorageType.deserialize
        (varInt7Encode REFTYPE :: (varUint32Encode 9 ++ [4])) =
      .ok (.Value (.Ref (.Ref 9)), [4]) :=
  C7_storage_dispatch.2.2.2 9 [4] (by norm_num)

/-- **C8**: `ValueTypesBuilder` with an identity continuation, selecting
`i32` then `f64` and building, yields `[I32, F64]` — and in general every
selection method appends its value type to the accumulator and `build`
hands the accumulator to the continuation unchanged. -/
theorem C8_builder :
    ((((ValueTypesBuilder.with_callback
        (fun l : List ValueType => l)).i32).f64).build =
      [ValueType.Num NumType.I32, ValueType.Num NumType.F64]) ∧
    (∀ (R : Type) (b : ValueTypesBuilder R),
      (b.i32).value_types = b.value_types ++ [.Num .I32] ∧
      (b.i64).value_types = b.value_types ++ [.Num .I64] ∧
      (b.f32).value_types = b.value_types ++ [.Num .F32] ∧
      (b.f64).value_types = b.value_types ++ [.Num .F64] ∧
      (b.i32).callback = b.callback ∧ (b.i64).callback = b.callback ∧
      (b.f32).callback = b.callback ∧ (b.f64).callback = b.callback ∧
      b.build = b.callback b.value_types) :=
  ⟨rfl, fun _ _ => ⟨rfl, rfl, rfl, rfl, rfl, rfl, rfl, rfl, rfl⟩⟩

/-- **C9**: two constructible struct types whose field sequences are
permutations of each other but differ as sequences are unequal values and
serialize to different byte sequences. -/
theorem C9_field_order :
    ∀ s1 s2 : StructType, s1.wf → s2.wf →
      s1.fields.Perm s2.fields → s1.fields ≠ s2.fields →
      s1 ≠ s2 ∧ StructType.serialize s1 ≠ StructType.serialize s2 := by
  intro s1 s2 h1 h2 hperm hne
  constructor
  · intro h
    exact hne (by rw [h])
  · intro hser
    have r1 := StructType.rt_struct s1 [] h1
    have r2 := StructType.rt_struct s2 [] h2
    rw [hser, r2] at r1
    have hp := Prod.mk.inj (Except.ok.inj r1)
    exact hne (congrArg StructType.fields hp.1.symm)

/-- A concrete immutable i32 field. -/
def fieldA : FieldType := ⟨.Value (.Num .I32), false⟩

/-- A concrete mutable packed-i8 field. -/
def fieldB : FieldType := ⟨.PackedI8, true⟩

/-- A concrete two-field struct type. -/
def structAB : StructType := ⟨[fieldA, fieldB]⟩

/-- The same two fields in the opposite order. -/
def structBA : StructType := ⟨[fieldB, fieldA]⟩

/-- **C9** witness: a two-field struct against its swap. -/
theorem C9_field_order_witness :
    structAB ≠ structBA ∧
      StructType.serialize structAB ≠ StructType.serialize structBA :=
  C9_field_order structAB structBA (by decide) (by decide)
    (by exact List.Perm.swap fieldB fieldA [])
    (by decide)

end ParityWasm
